import Mathlib

/-!
Verification of `shutdown_if_no_usage.py` (PolicyStat/shutdown-if-idle).

The Python module decides, once per cron invocation, whether a cloud host is
idle (via job marker files in a tracking directory) and whether shutting it
down now saves money under the provider's billing granularity.

This file gives a shallow embedding of the module:
* `shutdown_saves_money` — the pure billing evaluator, translated line by
  line; the Python true division `safe_uptime_seconds / 60` followed by
  `math.floor(... / payment_chunk_minutes)` is a single floor of an exact
  quotient and is modelled as integer floor division, with the lemma
  `floor_safe_uptime_div_chunk` proving the two agree.
* `Jobs`, `remove_timed_out_jobs`, `is_machine_idle` — the job record, the
  timeout reaper and the idle detector; filesystem side effects (deleting a
  timed-out marker, writing the quiet-timer marker) are made explicit as
  returned lists of deleted paths and an optional written file.
* `FS`, `_build_job_from_fp`, `build_jobs_from_dir` — the job registry over
  an explicit filesystem model with failure injection (missing directory,
  `os.makedirs` failure, `os.listdir` failure, vanished files, malformed
  marker bodies); Python exceptions become `Except PyError`.
* `main_run` — the orchestrator `main`, wiring registry → idle detector → billing
  evaluator → shutdown trigger.

Times are modelled in whole seconds (`Int`); Python's `int()` applied to an
exact integer-valued float is the identity, so no truncation behaviour is
lost on the inputs considered here.
-/

/-- `IDLE_QUIET_JOB_NAME = '_idle_quiet_timer'`: the reserved job name used to
implement the idle quiet period. -/
def IDLE_QUIET_JOB_NAME : String := "_idle_quiet_timer"

/-- `JOB_FILE_EXTENSION = '.log'`. -/
def JOB_FILE_EXTENSION : String := ".log"

/-- The `Jobs` namedtuple: `(name, seconds_running, timeout_threshold_minutes,
file_path)`. `seconds_running` is an `Int` because the Python code computes
`int(time.time() - last_modified_time)` with no clamping, which can be
negative under clock skew. -/
structure Jobs where
  name : String
  seconds_running : Int
  timeout_threshold_minutes : Int
  file_path : String
deriving Repr, DecidableEq

/-- Python `str.endswith`: whether `post` is a suffix of `s` (implemented
over the character lists so that it evaluates by kernel reduction). -/
def pyEndsWith (s post : String) : Bool :=
  post.data.isSuffixOf s.data

/-- `os.path.join(a, b)` for a relative second component: inserts a slash
unless `a` already ends with one or is empty. -/
def os_path_join (a b : String) : String :=
  if a = "" then b
  else if pyEndsWith a "/" then a ++ b
  else a ++ "/" ++ b

/-- `_file_name_from_job_name(tracking_dir, job_name)`:
`os.path.join(tracking_dir, "%s%s" % (job_name, JOB_FILE_EXTENSION))`. -/
def _file_name_from_job_name (tracking_dir job_name : String) : String :=
  os_path_join tracking_dir (job_name ++ JOB_FILE_EXTENSION)

/-- `shutdown_saves_money(uptime_seconds, paid_on_boot_minutes,
payment_chunk_minutes, shutdown_safety_margin)`, translated from the source.
All four arguments are integers (the caller `main` passes `int(...)` values).
The Python code computes `safe_uptime_minutes = safe_uptime_seconds / 60`
(exact true division, `from __future__ import division`) and
`chunks_paid = math.floor(safe_uptime_minutes / payment_chunk_minutes)`;
since a single floor is applied to the exact quotient, this equals the
integer floor division `safe_uptime_seconds / (payment_chunk_minutes * 60)`
(Lean's `Int` division is Euclidean division, which is floor division for the
positive divisors reachable here — `payment_chunk_minutes > 2` on this
branch); lemma `floor_safe_uptime_div_chunk` proves the equality. -/
def shutdown_saves_money
    (uptime_seconds paid_on_boot_minutes payment_chunk_minutes
     shutdown_safety_margin : Int) : Bool :=
  let shutdown_safety_seconds := shutdown_safety_margin * 60
  let safe_uptime_seconds := uptime_seconds + shutdown_safety_seconds
  let already_paid_from_boot : Bool :=
    let seconds_to_pay := safe_uptime_seconds + shutdown_safety_seconds
    let seconds_already_paid := paid_on_boot_minutes * 60
    let paid_seconds_left := seconds_already_paid - seconds_to_pay
    decide (paid_seconds_left > 0)
  if already_paid_from_boot then
    false
  else if payment_chunk_minutes ≤ 2 then
    true
  else
    let chunks_paid : Int := safe_uptime_seconds / (payment_chunk_minutes * 60)
    let next_chunk_uptime_seconds := (chunks_paid + 1) * payment_chunk_minutes * 60
    let seconds_until_next_chunk := next_chunk_uptime_seconds - safe_uptime_seconds
    decide (seconds_until_next_chunk ≤ shutdown_safety_seconds)

/-- Faithfulness of the `chunks_paid` translation: for a positive payment
chunk, `math.floor((s / 60) / c)` (exact rational division, one floor)
equals the integer division `s / (c * 60)` used in `shutdown_saves_money`. -/
theorem floor_safe_uptime_div_chunk (s c : Int) (hc : 0 < c) :
    ⌊(s : ℚ) / 60 / (c : ℚ)⌋ = s / (c * 60) := by
  have hct : ((c.toNat : ℤ)) = c := Int.toNat_of_nonneg hc.le
  have hctq : ((c.toNat : ℚ)) = (c : ℚ) := by exact_mod_cast hct
  have h1 : (s : ℚ) / 60 / (c : ℚ) = (s : ℚ) / ((c.toNat * 60 : ℕ) : ℚ) := by
    rw [div_div]
    congr 1
    push_cast [hctq]
    ring
  rw [h1, Rat.floor_intCast_div_natCast]
  congr 1
  push_cast
  rw [hct]

/-- C1: `shutdown_saves_money` reproduces the worked doctest table exactly:
`shutdown_saves_money(5*60, 10, 1, 2) = false`,
`shutdown_saves_money(6*60, 10, 1, 2) = true`,
`shutdown_saves_money(55*60, 60, 60, 2) = false`,
`shutdown_saves_money(56*60, 60, 60, 2) = true`, and
`shutdown_saves_money(118*60, 60, 60, 2) = false`. -/
theorem shutdown_saves_money_worked_table :
    shutdown_saves_money (5 * 60) 10 1 2 = false ∧
    shutdown_saves_money (6 * 60) 10 1 2 = true ∧
    shutdown_saves_money (55 * 60) 60 60 2 = false ∧
    shutdown_saves_money (56 * 60) 60 60 2 = true ∧
    shutdown_saves_money (118 * 60) 60 60 2 = false := by
  refine ⟨?_, ?_, ?_, ?_, ?_⟩ <;> decide

/-- C6: the already-paid check. Whenever
`paid_on_boot_minutes * 60 - (uptime_seconds + 2 * shutdown_safety_margin * 60) > 0`
(the margin counted twice: once inside `safe_uptime_seconds`, once more in
`seconds_to_pay`, compared with strict `> 0`), `shutdown_saves_money` returns
`false`, for all integer inputs. -/
theorem shutdown_saves_money_already_paid
    (u p c m : Int)
    (h : p * 60 - (u + 2 * m * 60) > 0) :
    shutdown_saves_money u p c m = false := by
  have hcond : p * 60 - (u + m * 60 + m * 60) > 0 := by linarith
  simp [shutdown_saves_money, hcond]

/-- Witness for C6 at `uptime_seconds = 300`, `paid = 10`, `chunk = 1`,
`margin = 2` (the first row of the worked table). -/
theorem shutdown_saves_money_already_paid_witness :
    (10 : Int) * 60 - (300 + 2 * 2 * 60) > 0 ∧
    shutdown_saves_money 300 10 1 2 = false :=
  ⟨by decide, shutdown_saves_money_already_paid 300 10 1 2 (by decide)⟩

/-- C7: the fine-grained chunk shortcut. If the already-paid check does not
fire (`paid_on_boot_minutes * 60 - (uptime_seconds + 2 * margin * 60) ≤ 0`)
and `payment_chunk_minutes ≤ 2`, then `shutdown_saves_money` returns `true`,
for all integer inputs. -/
theorem shutdown_saves_money_small_chunk
    (u p c m : Int)
    (hpaid : p * 60 - (u + 2 * m * 60) ≤ 0)
    (hc : c ≤ 2) :
    shutdown_saves_money u p c m = true := by
  have hcond : ¬ (p * 60 - (u + m * 60 + m * 60) > 0) := by
    push_neg
    linarith
  simp [shutdown_saves_money, hcond, hc]

/-- Witness for C7 at `uptime_seconds = 360`, `paid = 10`, `chunk = 1`,
`margin = 2` (the second row of the worked table). -/
theorem shutdown_saves_money_small_chunk_witness :
    (10 : Int) * 60 - (360 + 2 * 2 * 60) ≤ 0 ∧ (1 : Int) ≤ 2 ∧
    shutdown_saves_money 360 10 1 2 = true :=
  ⟨by decide, by decide, shutdown_saves_money_small_chunk 360 10 1 2 (by decide) (by decide)⟩

/-- `remove_timed_out_jobs(jobs)`: partitions `jobs` by the expiry rule
`seconds_running >= timeout_threshold_minutes * 60`, calls
`os.remove(job.file_path)` on each expired job and returns the still-running
list. The side effect is made explicit: the second component is the list of
marker paths removed, in the order the Python loop removes them. -/
def remove_timed_out_jobs (jobs : List Jobs) : List Jobs × List String :=
  let running_jobs := jobs.filter
    (fun job => job.seconds_running < job.timeout_threshold_minutes * 60)
  let jobs_to_terminate := jobs.filter
    (fun job => job.seconds_running ≥ job.timeout_threshold_minutes * 60)
  (running_jobs, jobs_to_terminate.map (fun job => job.file_path))

/-- Result of one `is_machine_idle` call: the returned boolean, the marker
paths deleted by the embedded `remove_timed_out_jobs` call, and the quiet-
timer marker written on the "start the quiet period" branch
(`(file path, body)`), if any. -/
structure IdleResult where
  idle : Bool
  deleted_paths : List String
  written_marker : Option (String × String)
deriving Repr, DecidableEq

/-- `is_machine_idle(jobs, idle_quiet_period, tracking_dir)`: records whether
the reserved quiet-timer job is present, reaps timed-out jobs, and then
returns not-idle if any job is still running, idle if the quiet period was
active (and has therefore just expired), and otherwise starts the quiet
period by writing the quiet-timer marker whose body is the
`idle_quiet_period` string, returning not-idle. -/
def is_machine_idle (jobs : List Jobs) (idle_quiet_period : String)
    (tracking_dir : String) : IdleResult :=
  let were_in_quiet_period := jobs.any (fun job => job.name == IDLE_QUIET_JOB_NAME)
  let reaped := remove_timed_out_jobs jobs
  let running_jobs := reaped.1
  if running_jobs ≠ [] then
    ⟨false, reaped.2, none⟩
  else if were_in_quiet_period then
    ⟨true, reaped.2, none⟩
  else
    let idle_job_fp := _file_name_from_job_name tracking_dir IDLE_QUIET_JOB_NAME
    ⟨false, reaped.2, some (idle_job_fp, idle_quiet_period)⟩

/-- C4: `remove_timed_out_jobs` partitions its input exactly by the expiry
rule. For an input whose marker paths are pairwise distinct, every job with
`seconds_running ≥ timeout_threshold_minutes * 60` has its marker deleted and
is excluded from the returned list, and every job with
`seconds_running < timeout_threshold_minutes * 60` appears in the returned
list and its marker is not deleted. -/
theorem remove_timed_out_jobs_partitions
    (jobs : List Jobs) (hnd : (jobs.map Jobs.file_path).Nodup)
    (job : Jobs) (hmem : job ∈ jobs) :
    (job.seconds_running ≥ job.timeout_threshold_minutes * 60 →
      job.file_path ∈ (remove_timed_out_jobs jobs).2 ∧
      job ∉ (remove_timed_out_jobs jobs).1) ∧
    (job.seconds_running < job.timeout_threshold_minutes * 60 →
      job ∈ (remove_timed_out_jobs jobs).1 ∧
      job.file_path ∉ (remove_timed_out_jobs jobs).2) := by
  constructor
  · intro hexp
    constructor
    · simp only [remove_timed_out_jobs, List.mem_map]
      exact ⟨job, List.mem_filter.2 ⟨hmem, by simpa using hexp⟩, rfl⟩
    · intro hrun
      have := (List.mem_filter.1 hrun).2
      simp only [decide_eq_true_eq] at this
      omega
  · intro hrun
    constructor
    · exact List.mem_filter.2 ⟨hmem, by simpa using hrun⟩
    · intro hdel
      simp only [remove_timed_out_jobs, List.mem_map] at hdel
      obtain ⟨j2, hj2mem, hj2path⟩ := hdel
      have hj2 := List.mem_filter.1 hj2mem
      have hj2exp : j2.seconds_running ≥ j2.timeout_threshold_minutes * 60 := by
        simpa using hj2.2
      have hbase : jobs.Nodup := List.Nodup.of_map _ hnd
      have hinj := (List.nodup_map_iff_inj_on hbase).mp hnd j2 hj2.1 job hmem hj2path
      rw [hinj] at hj2exp
      omega

/-- Witness for C4 on a two-job list: one expired job, one still running. -/
theorem remove_timed_out_jobs_partitions_witness :
    ((([⟨"a", 120, 1, "/tmp/idle-tracking/a.log"⟩,
        ⟨"b", 30, 1, "/tmp/idle-tracking/b.log"⟩] : List Jobs).map
          Jobs.file_path).Nodup ∧
      (⟨"a", 120, 1, "/tmp/idle-tracking/a.log"⟩ : Jobs) ∈
        ([⟨"a", 120, 1, "/tmp/idle-tracking/a.log"⟩,
          ⟨"b", 30, 1, "/tmp/idle-tracking/b.log"⟩] : List Jobs)) ∧
    ((120 : Int) ≥ 1 * 60 →
      "/tmp/idle-tracking/a.log" ∈
        (remove_timed_out_jobs
          [⟨"a", 120, 1, "/tmp/idle-tracking/a.log"⟩,
           ⟨"b", 30, 1, "/tmp/idle-tracking/b.log"⟩]).2 ∧
      (⟨"a", 120, 1, "/tmp/idle-tracking/a.log"⟩ : Jobs) ∉
        (remove_timed_out_jobs
          [⟨"a", 120, 1, "/tmp/idle-tracking/a.log"⟩,
           ⟨"b", 30, 1, "/tmp/idle-tracking/b.log"⟩]).1) ∧
    ((120 : Int) < 1 * 60 →
      (⟨"a", 120, 1, "/tmp/idle-tracking/a.log"⟩ : Jobs) ∈
        (remove_timed_out_jobs
          [⟨"a", 120, 1, "/tmp/idle-tracking/a.log"⟩,
           ⟨"b", 30, 1, "/tmp/idle-tracking/b.log"⟩]).1 ∧
      "/tmp/idle-tracking/a.log" ∉
        (remove_timed_out_jobs
          [⟨"a", 120, 1, "/tmp/idle-tracking/a.log"⟩,
           ⟨"b", 30, 1, "/tmp/idle-tracking/b.log"⟩]).2) :=
  ⟨⟨by decide, by decide⟩,
    remove_timed_out_jobs_partitions
      [⟨"a", 120, 1, "/tmp/idle-tracking/a.log"⟩,
       ⟨"b", 30, 1, "/tmp/idle-tracking/b.log"⟩]
      (by decide)
      ⟨"a", 120, 1, "/tmp/idle-tracking/a.log"⟩
      (by decide)⟩

/-- Unfolding equation for `remove_timed_out_jobs`, first component. -/
theorem remove_timed_out_jobs_fst (jobs : List Jobs) :
    (remove_timed_out_jobs jobs).1 = jobs.filter
      (fun job => job.seconds_running < job.timeout_threshold_minutes * 60) := rfl

/-- Unfolding equation for `remove_timed_out_jobs`, second component. -/
theorem remove_timed_out_jobs_snd (jobs : List Jobs) :
    (remove_timed_out_jobs jobs).2 = (jobs.filter
      (fun job => job.seconds_running ≥ job.timeout_threshold_minutes * 60)).map
        (fun job => job.file_path) := rfl

/-- Unfolding equation for `is_machine_idle` as a three-way case split. -/
theorem is_machine_idle_def (jobs : List Jobs) (q tr : String) :
    is_machine_idle jobs q tr =
      if (remove_timed_out_jobs jobs).1 ≠ [] then
        ⟨false, (remove_timed_out_jobs jobs).2, none⟩
      else if jobs.any (fun job => job.name == IDLE_QUIET_JOB_NAME) then
        ⟨true, (remove_timed_out_jobs jobs).2, none⟩
      else
        ⟨false, (remove_timed_out_jobs jobs).2,
          some (_file_name_from_job_name tr IDLE_QUIET_JOB_NAME, q)⟩ := rfl

/-- C2: quiet-period round trip. With no jobs and no quiet-timer entry,
`is_machine_idle` returns `false` and writes the quiet-timer marker whose
body is the `idle_quiet_minutes` string; on a later call in which the only
job is the quiet-timer job, expired per its threshold `m`
(`seconds_running ≥ m * 60`), it returns `true`. Instantiating `m = 0` gives
the one-cycle minimum debounce: the timer expires as soon as its age is
`≥ 0` seconds. -/
theorem is_machine_idle_quiet_round_trip
    (q tr : String) (j : Jobs) (m : Int)
    (hn : j.name = IDLE_QUIET_JOB_NAME)
    (hth : j.timeout_threshold_minutes = m)
    (hexp : j.seconds_running ≥ m * 60) :
    (is_machine_idle [] q tr).idle = false ∧
    (is_machine_idle [] q tr).written_marker =
      some (_file_name_from_job_name tr IDLE_QUIET_JOB_NAME, q) ∧
    (is_machine_idle [j] q tr).idle = true := by
  subst hth
  refine ⟨rfl, rfl, ?_⟩
  have hwere : ([j].any (fun job => job.name == IDLE_QUIET_JOB_NAME)) = true := by
    simp [hn]
  have hrun : (remove_timed_out_jobs [j]).1 = [] := by
    rw [remove_timed_out_jobs_fst]
    rw [List.filter_eq_nil_iff]
    intro a ha
    simp only [List.mem_singleton] at ha
    subst ha
    simp only [decide_eq_true_eq, not_lt]
    exact hexp
  rw [is_machine_idle_def, if_neg (by simp [hrun]), if_pos hwere]

/-- Witness for C2 with `idle_quiet_minutes = 0`: the quiet-timer job with a
0-minute threshold and age 0 seconds already counts as expired, so the second
call returns `true` even at zero configured quiet time. -/
theorem is_machine_idle_quiet_round_trip_witness :
    ((⟨"_idle_quiet_timer", 0, 0, "/tmp/idle-tracking/_idle_quiet_timer.log"⟩ : Jobs).name
        = IDLE_QUIET_JOB_NAME ∧
      (⟨"_idle_quiet_timer", 0, 0, "/tmp/idle-tracking/_idle_quiet_timer.log"⟩ : Jobs).timeout_threshold_minutes
        = (0 : Int) ∧
      (⟨"_idle_quiet_timer", 0, 0, "/tmp/idle-tracking/_idle_quiet_timer.log"⟩ : Jobs).seconds_running
        ≥ (0 : Int) * 60) ∧
    (is_machine_idle [] "0" "/tmp/idle-tracking/").idle = false ∧
    (is_machine_idle [] "0" "/tmp/idle-tracking/").written_marker =
      some (_file_name_from_job_name "/tmp/idle-tracking/" IDLE_QUIET_JOB_NAME, "0") ∧
    (is_machine_idle
      [⟨"_idle_quiet_timer", 0, 0, "/tmp/idle-tracking/_idle_quiet_timer.log"⟩]
      "0" "/tmp/idle-tracking/").idle = true :=
  ⟨⟨rfl, rfl, by decide⟩,
    is_machine_idle_quiet_round_trip "0" "/tmp/idle-tracking/"
      ⟨"_idle_quiet_timer", 0, 0, "/tmp/idle-tracking/_idle_quiet_timer.log"⟩
      0 rfl rfl (by decide)⟩

/-- C10: if `is_machine_idle` returns `true` then the quiet-timer job was in
the input list, every input job (the quiet timer included) satisfied the
expiry rule `seconds_running ≥ timeout_threshold_minutes * 60`, the call
deleted every input marker, and it wrote no new marker. -/
theorem is_machine_idle_true_characterization
    (jobs : List Jobs) (q tr : String)
    (h : (is_machine_idle jobs q tr).idle = true) :
    (∃ j ∈ jobs, j.name = IDLE_QUIET_JOB_NAME) ∧
    (∀ j ∈ jobs, j.seconds_running ≥ j.timeout_threshold_minutes * 60) ∧
    (is_machine_idle jobs q tr).deleted_paths = jobs.map Jobs.file_path ∧
    (is_machine_idle jobs q tr).written_marker = none := by
  by_cases hr : (remove_timed_out_jobs jobs).1 = []
  · by_cases hw : jobs.any (fun job => job.name == IDLE_QUIET_JOB_NAME) = true
    · have hall : ∀ j ∈ jobs, j.seconds_running ≥ j.timeout_threshold_minutes * 60 := by
        intro j hj
        rw [remove_timed_out_jobs_fst, List.filter_eq_nil_iff] at hr
        have := hr j hj
        simp only [decide_eq_true_eq, not_lt] at this
        exact this
      refine ⟨?_, hall, ?_, ?_⟩
      · obtain ⟨j, hjmem, hjname⟩ := List.any_eq_true.mp hw
        exact ⟨j, hjmem, by simpa using hjname⟩
      · rw [is_machine_idle_def, if_neg (by simp [hr]), if_pos hw]
        rw [remove_timed_out_jobs_snd]
        have hfull : jobs.filter
            (fun job => job.seconds_running ≥ job.timeout_threshold_minutes * 60) = jobs := by
          rw [List.filter_eq_self]
          intro a ha
          simpa using hall a ha
        rw [hfull]
      · rw [is_machine_idle_def, if_neg (by simp [hr]), if_pos hw]
    · exfalso
      rw [is_machine_idle_def, if_neg (by simp [hr]), if_neg hw] at h
      exact Bool.false_ne_true h
  · exfalso
    rw [is_machine_idle_def, if_pos hr] at h
    exact Bool.false_ne_true h

/-- Witness for C10: the expired quiet-timer job alongside another expired
job; the call returns idle, deletes both markers and writes nothing. -/
theorem is_machine_idle_true_characterization_witness :
    ((is_machine_idle
        [⟨"a", 120, 1, "/tmp/idle-tracking/a.log"⟩,
         ⟨"_idle_quiet_timer", 130, 2, "/tmp/idle-tracking/_idle_quiet_timer.log"⟩]
        "2" "/tmp/idle-tracking/").idle = true) ∧
    ((∃ j ∈ ([⟨"a", 120, 1, "/tmp/idle-tracking/a.log"⟩,
        ⟨"_idle_quiet_timer", 130, 2, "/tmp/idle-tracking/_idle_quiet_timer.log"⟩] : List Jobs),
        j.name = IDLE_QUIET_JOB_NAME) ∧
      (∀ j ∈ ([⟨"a", 120, 1, "/tmp/idle-tracking/a.log"⟩,
        ⟨"_idle_quiet_timer", 130, 2, "/tmp/idle-tracking/_idle_quiet_timer.log"⟩] : List Jobs),
        j.seconds_running ≥ j.timeout_threshold_minutes * 60) ∧
      (is_machine_idle
        [⟨"a", 120, 1, "/tmp/idle-tracking/a.log"⟩,
         ⟨"_idle_quiet_timer", 130, 2, "/tmp/idle-tracking/_idle_quiet_timer.log"⟩]
        "2" "/tmp/idle-tracking/").deleted_paths =
        ([⟨"a", 120, 1, "/tmp/idle-tracking/a.log"⟩,
          ⟨"_idle_quiet_timer", 130, 2, "/tmp/idle-tracking/_idle_quiet_timer.log"⟩] : List Jobs).map
            Jobs.file_path ∧
      (is_machine_idle
        [⟨"a", 120, 1, "/tmp/idle-tracking/a.log"⟩,
         ⟨"_idle_quiet_timer", 130, 2, "/tmp/idle-tracking/_idle_quiet_timer.log"⟩]
        "2" "/tmp/idle-tracking/").written_marker = none) :=
  ⟨by decide,
    is_machine_idle_true_characterization
      [⟨"a", 120, 1, "/tmp/idle-tracking/a.log"⟩,
       ⟨"_idle_quiet_timer", 130, 2, "/tmp/idle-tracking/_idle_quiet_timer.log"⟩]
      "2" "/tmp/idle-tracking/" (by decide)⟩

/-- Python exceptions that the registry code can raise:
`OSError` (from `os.makedirs`, `os.listdir`, `os.path.getmtime` or `open` on
a vanished file), `IndexError` (from `f.readline().split()[0]` on an empty
or all-whitespace first line) and `ValueError` (from `float(...)` on a
non-numeric token). -/
inductive PyError where
  | OSError
  | IndexError
  | ValueError
deriving Repr, DecidableEq

/-- One file of the tracking directory as seen by a single invocation:
its filename, its text content, its last-modified time (whole seconds) and
whether it vanishes between `os.listdir` and the subsequent
`os.path.getmtime`/`open` (the race with a job deleting its own marker). -/
structure FSFile where
  name : String
  content : String
  mtime : Int
  vanished : Bool
deriving Repr, DecidableEq

/-- The filesystem state and failure injections for one invocation:
whether the tracking directory exists (`os.path.isdir`), whether
`os.makedirs` would fail (e.g. permission denied), whether `os.listdir`
fails, the directory contents, and the current clock `time.time()` in whole
seconds. -/
structure FS where
  dir_exists : Bool
  mkdir_fails : Bool
  listdir_fails : Bool
  files : List FSFile
  now : Int
deriving Repr, DecidableEq

/-- Tokeniser behind `pySplit`: walks the character list, accumulating the
current (reversed) token; whitespace ends a token. -/
def pySplitAux : List Char → List Char → List String
  | [], acc => if acc.isEmpty then [] else [String.mk acc.reverse]
  | c :: cs, acc =>
    if c.isWhitespace then
      if acc.isEmpty then pySplitAux cs []
      else String.mk acc.reverse :: pySplitAux cs []
    else pySplitAux cs (c :: acc)

/-- Python `str.split()` with no argument: split on runs of whitespace,
dropping empty pieces. -/
def pySplit (s : String) : List String :=
  pySplitAux s.data []

/-- Numeric value of a list of decimal digit characters. -/
def digitsVal (cs : List Char) : Nat :=
  cs.foldl (fun a c => a * 10 + (c.toNat - 48)) 0

/-- `int(float(tok))` for decimal literals `[+|-]digits[.digits]` (either
digit group may be empty, but not both): the float parse followed by
truncation toward zero yields the signed integer part. Returns `none` when
`float(tok)` would raise `ValueError`. Exotic float spellings (exponents,
`inf`, `nan`) do not occur in any input considered here and are treated as
non-numeric. -/
def parse_timeout_int? (s : String) : Option Int :=
  let signRest : Int × List Char :=
    match s.toList with
    | '-' :: r => (-1, r)
    | '+' :: r => (1, r)
    | r => (1, r)
  let intPart := signRest.2.takeWhile Char.isDigit
  match signRest.2.dropWhile Char.isDigit with
  | [] =>
    if intPart.isEmpty then none
    else some (signRest.1 * (digitsVal intPart : Int))
  | '.' :: frac =>
    if frac.all Char.isDigit && !(intPart.isEmpty && frac.isEmpty) then
      some (signRest.1 * (digitsVal intPart : Int))
    else none
  | _ => none

/-- `os.path.splitext(p)[0]`: the filename with its last dot-extension
stripped. (Python keeps the dot of a bare dotfile name such as `".log"`; no
filename considered here is a bare dotfile, so that corner is not
modelled.) -/
def splitext_stem (p : String) : String :=
  match p.data.reverse.dropWhile (fun c => !(c == '.')) with
  | '.' :: rest => String.mk rest.reverse
  | _ => p

/-- `_build_job_from_fp(tracking_dir, job_filepath)`: reads the marker's
mtime and first token and builds the `Jobs` record. `seconds_running` is
`int(time.time() - last_modified_time)` — a plain difference, with no
clamping at zero. Failures map to the exception the Python code would
raise; none of them are caught in the source. -/
def _build_job_from_fp (fs : FS) (tracking_dir job_filepath : String) :
    Except PyError Jobs :=
  match fs.files.find? (fun f => f.name == job_filepath) with
  | none => Except.error PyError.OSError
  | some f =>
    if f.vanished then Except.error PyError.OSError
    else
      let seconds_running := fs.now - f.mtime
      match (pySplit f.content).head? with
      | none => Except.error PyError.IndexError
      | some tok =>
        match parse_timeout_int? tok with
        | none => Except.error PyError.ValueError
        | some timeout_minutes =>
          Except.ok
            ⟨splitext_stem job_filepath, seconds_running, timeout_minutes,
              os_path_join tracking_dir job_filepath⟩

/-- The `for job_filepath in job_files` loop of `build_jobs_from_dir`:
filenames not ending in `.log` are skipped; for the rest,
`_build_job_from_fp` is called with no exception handler, so its first
failure propagates out of the whole loop. -/
def build_jobs_loop (fs : FS) (tracking_dir : String) :
    List String → Except PyError (List Jobs)
  | [] => Except.ok []
  | fp :: rest =>
    if pyEndsWith fp JOB_FILE_EXTENSION then
      match _build_job_from_fp fs tracking_dir fp with
      | Except.error e => Except.error e
      | Except.ok job =>
        match build_jobs_loop fs tracking_dir rest with
        | Except.error e => Except.error e
        | Except.ok jobs => Except.ok (job :: jobs)
    else build_jobs_loop fs tracking_dir rest

/-- `build_jobs_from_dir(tracking_dir)`: if the directory is missing it is
created with `os.makedirs` — whose failure is NOT caught and propagates; an
`os.listdir` failure IS caught (`except OSError`) and treated as an empty
listing; the per-file loop is `build_jobs_loop`. -/
def build_jobs_from_dir (fs : FS) (tracking_dir : String) :
    Except PyError (List Jobs) :=
  if !fs.dir_exists && fs.mkdir_fails then
    Except.error PyError.OSError
  else
    let job_files :=
      if fs.dir_exists then
        (if fs.listdir_fails then [] else fs.files.map (fun f => f.name))
      else []
    build_jobs_loop fs tracking_dir job_files

/-- C5 counterexample: a directory holding a good marker (`a.log`, body `5`)
and a malformed one (`b.log`, body `oops`). The claim says the bad marker is
excluded and the good job is still returned; instead the `ValueError` from
`float('oops')` propagates out of `build_jobs_from_dir`, so no job list is
produced at all. -/
theorem build_jobs_from_dir_bad_marker_counterexample :
    build_jobs_from_dir
        ⟨true, false, false,
          [⟨"a.log", "5", 0, false⟩, ⟨"b.log", "oops", 0, false⟩], 200⟩
        "/tmp/idle-tracking/" = Except.error PyError.ValueError ∧
    build_jobs_from_dir
        ⟨true, false, false,
          [⟨"a.log", "5", 0, false⟩, ⟨"b.log", "oops", 0, false⟩], 200⟩
        "/tmp/idle-tracking/" ≠
      Except.ok [⟨"a", 200, 5, "/tmp/idle-tracking/a.log"⟩] := by
  refine ⟨rfl, ?_⟩
  intro hcontra
  rw [(rfl : build_jobs_from_dir
      ⟨true, false, false,
        [⟨"a.log", "5", 0, false⟩, ⟨"b.log", "oops", 0, false⟩], 200⟩
      "/tmp/idle-tracking/" = Except.error PyError.ValueError)] at hcontra
  exact Except.noConfusion hcontra

/-- Helper for C5 (amended): if some listed filename ends in `.log` and its
`_build_job_from_fp` call fails, the whole loop fails. -/
theorem build_jobs_loop_error_mem (fs : FS) (tr : String) :
    ∀ (l : List String) (fp : String), fp ∈ l →
      pyEndsWith fp JOB_FILE_EXTENSION = true →
      (∃ e, _build_job_from_fp fs tr fp = Except.error e) →
      ∃ e2, build_jobs_loop fs tr l = Except.error e2 := by
  intro l
  induction l with
  | nil =>
    intro fp hmem
    simp at hmem
  | cons a rest ih =>
    intro fp hmem hext he
    rcases List.mem_cons.mp hmem with h | hrest
    · subst h
      obtain ⟨e, he⟩ := he
      exact ⟨e, by simp [build_jobs_loop, hext, he]⟩
    · by_cases ha : pyEndsWith a JOB_FILE_EXTENSION = true
      · cases hb : _build_job_from_fp fs tr a with
        | error e =>
          exact ⟨e, by simp [build_jobs_loop, ha, hb]⟩
        | ok job =>
          obtain ⟨e2, h2⟩ := ih fp hrest hext he
          exact ⟨e2, by simp [build_jobs_loop, ha, hb, h2]⟩
      · obtain ⟨e2, h2⟩ := ih fp hrest hext he
        exact ⟨e2, by simp [build_jobs_loop, ha, h2]⟩

/-- C5 amended: `build_jobs_from_dir` has no per-file exception handler.
When the directory exists and its listing succeeds, any `.log` marker whose
`_build_job_from_fp` fails (non-numeric first token, empty body, or the file
vanishing between listing and reading) makes the whole scan fail: the error
propagates out of `build_jobs_from_dir` and no job list is returned. Only a
filename not ending in `.log`, or a failure of `os.listdir` itself, is
tolerated. -/
theorem build_jobs_from_dir_bad_marker_aborts
    (fs : FS) (tr : String)
    (hdir : fs.dir_exists = true)
    (hls : fs.listdir_fails = false)
    (f : FSFile) (hf : f ∈ fs.files)
    (hext : pyEndsWith f.name JOB_FILE_EXTENSION = true)
    (e : PyError) (he : _build_job_from_fp fs tr f.name = Except.error e) :
    ∃ e2, build_jobs_from_dir fs tr = Except.error e2 := by
  have hmem : f.name ∈ fs.files.map (fun g => g.name) :=
    List.mem_map.2 ⟨f, hf, rfl⟩
  have hloop := build_jobs_loop_error_mem fs tr (fs.files.map (fun g => g.name))
    f.name hmem hext ⟨e, he⟩
  simpa [build_jobs_from_dir, hdir, hls] using hloop

/-- Witness for C5 (amended) on the two-marker directory of the
counterexample: the malformed `b.log` marker aborts the scan. -/
theorem build_jobs_from_dir_bad_marker_aborts_witness :
    ((⟨true, false, false,
        [⟨"a.log", "5", 0, false⟩, ⟨"b.log", "oops", 0, false⟩], 200⟩ : FS).dir_exists
          = true ∧
      (⟨true, false, false,
        [⟨"a.log", "5", 0, false⟩, ⟨"b.log", "oops", 0, false⟩], 200⟩ : FS).listdir_fails
          = false ∧
      (⟨"b.log", "oops", 0, false⟩ : FSFile) ∈
        (⟨true, false, false,
          [⟨"a.log", "5", 0, false⟩, ⟨"b.log", "oops", 0, false⟩], 200⟩ : FS).files ∧
      (pyEndsWith "b.log" JOB_FILE_EXTENSION = true) ∧
      _build_job_from_fp
        ⟨true, false, false,
          [⟨"a.log", "5", 0, false⟩, ⟨"b.log", "oops", 0, false⟩], 200⟩
        "/tmp/idle-tracking/" "b.log" = Except.error PyError.ValueError) ∧
    (∃ e2, build_jobs_from_dir
        ⟨true, false, false,
          [⟨"a.log", "5", 0, false⟩, ⟨"b.log", "oops", 0, false⟩], 200⟩
        "/tmp/idle-tracking/" = Except.error e2) :=
  ⟨⟨rfl, rfl, by decide, by decide, rfl⟩,
    build_jobs_from_dir_bad_marker_aborts
      ⟨true, false, false,
        [⟨"a.log", "5", 0, false⟩, ⟨"b.log", "oops", 0, false⟩], 200⟩
      "/tmp/idle-tracking/" rfl rfl
      ⟨"b.log", "oops", 0, false⟩ (by decide) (by decide)
      PyError.ValueError rfl⟩

/-- C8 counterexample: the tracking directory is missing and `os.makedirs`
fails (permission denied). The claim says the run still returns an empty job
list; instead the uncaught `OSError` propagates out of
`build_jobs_from_dir`. -/
theorem build_jobs_from_dir_mkdir_failure_counterexample :
    build_jobs_from_dir ⟨false, true, false, [], 0⟩ "/tmp/idle-tracking/" =
      Except.error PyError.OSError ∧
    build_jobs_from_dir ⟨false, true, false, [], 0⟩ "/tmp/idle-tracking/" ≠
      Except.ok [] := by
  refine ⟨rfl, ?_⟩
  intro hcontra
  rw [(rfl : build_jobs_from_dir ⟨false, true, false, [], 0⟩
      "/tmp/idle-tracking/" = Except.error PyError.OSError)] at hcontra
  exact Except.noConfusion hcontra

/-- Helper for C8 (amended): the per-file loop reads the filesystem only
through `files` and `now`, so it is insensitive to the `mkdir_fails` and
`listdir_fails` injections. -/
theorem build_jobs_loop_congr (tr : String) (l : List String)
    (b1 b2 ls1 ls2 : Bool) (files : List FSFile) (now : Int) :
    build_jobs_loop ⟨true, b1, ls1, files, now⟩ tr l =
      build_jobs_loop ⟨true, b2, ls2, files, now⟩ tr l := by
  induction l with
  | nil => rfl
  | cons a rest ih =>
    by_cases ha : pyEndsWith a JOB_FILE_EXTENSION = true
    · have hsame : _build_job_from_fp ⟨true, b2, ls2, files, now⟩ tr a =
          _build_job_from_fp ⟨true, b1, ls1, files, now⟩ tr a := rfl
      cases hb : _build_job_from_fp ⟨true, b1, ls1, files, now⟩ tr a with
      | error e => simp [build_jobs_loop, ha, hb, hsame]
      | ok job => simp [build_jobs_loop, ha, hb, hsame, ih]
    · simp [build_jobs_loop, ha, ih]

/-- C8 amended: when the tracking directory already exists, `os.makedirs` is
never called (`build_jobs_from_dir` is insensitive to whether creation would
fail), so the call is safe; but when the directory is missing and creation
fails, the `OSError` is not caught — the run aborts instead of producing an
empty job list. (Only an `os.listdir` failure is absorbed into an empty
listing.) -/
theorem build_jobs_from_dir_mkdir_behaviour (tr : String) :
    (∀ (b ls : Bool) (files : List FSFile) (now : Int),
      build_jobs_from_dir ⟨true, b, ls, files, now⟩ tr =
        build_jobs_from_dir ⟨true, false, ls, files, now⟩ tr) ∧
    (∀ fs : FS, fs.dir_exists = false → fs.mkdir_fails = true →
      build_jobs_from_dir fs tr = Except.error PyError.OSError) := by
  constructor
  · intro b ls files now
    simp only [build_jobs_from_dir]
    simp only [Bool.not_true, Bool.false_and, Bool.and_false, if_neg, Bool.false_eq_true,
      not_false_eq_true, reduceIte]
    exact build_jobs_loop_congr tr _ b false ls ls files now
  · intro fs h1 h2
    simp [build_jobs_from_dir, h1, h2]

/-- Witness for C8 (amended): an existing directory with a pending creation
failure behaves as if creation could not fail; a missing directory with a
creation failure aborts with `OSError`. -/
theorem build_jobs_from_dir_mkdir_behaviour_witness :
    (build_jobs_from_dir ⟨true, true, false, [], 0⟩ "/tmp/idle-tracking/" =
      build_jobs_from_dir ⟨true, false, false, [], 0⟩ "/tmp/idle-tracking/") ∧
    ((⟨false, true, false, [], 0⟩ : FS).dir_exists = false ∧
      (⟨false, true, false, [], 0⟩ : FS).mkdir_fails = true ∧
      build_jobs_from_dir ⟨false, true, false, [], 0⟩ "/tmp/idle-tracking/" =
        Except.error PyError.OSError) :=
  ⟨(build_jobs_from_dir_mkdir_behaviour "/tmp/idle-tracking/").1 true false [] 0,
    rfl, rfl,
    (build_jobs_from_dir_mkdir_behaviour "/tmp/idle-tracking/").2
      ⟨false, true, false, [], 0⟩ rfl rfl⟩

/-- C9 counterexample: a marker whose mtime (100) lies in the future of the
clock (0). The claim says `seconds_running` is clamped to 0; instead the
registry returns the job with `seconds_running = -100`. -/
theorem build_job_negative_skew_counterexample :
    _build_job_from_fp ⟨true, false, false, [⟨"a.log", "5", 100, false⟩], 0⟩
        "/tmp/idle-tracking/" "a.log" =
      Except.ok ⟨"a", -100, 5, "/tmp/idle-tracking/a.log"⟩ ∧
    ((-100 : Int) < 0) := by
  refine ⟨rfl, ?_⟩
  decide

/-- C9 amended: for every successfully read marker file, the Job's
`seconds_running` is the raw difference `now - last_modified_time`, with no
clamping: under negative clock skew it is negative, not 0. -/
theorem build_job_seconds_running_unclamped
    (fs : FS) (tr fp : String) (j : Jobs)
    (h : _build_job_from_fp fs tr fp = Except.ok j) :
    ∃ f ∈ fs.files, f.name = fp ∧ j.seconds_running = fs.now - f.mtime := by
  unfold _build_job_from_fp at h
  cases hf : fs.files.find? (fun f => f.name == fp) with
  | none =>
    rw [hf] at h
    exact absurd h (by simp)
  | some f =>
    rw [hf] at h
    dsimp only at h
    have hmem := List.mem_of_find?_eq_some hf
    have hname : f.name = fp := by
      have := List.find?_some hf
      simpa using this
    refine ⟨f, hmem, hname, ?_⟩
    by_cases hv : f.vanished = true
    · rw [if_pos hv] at h
      exact absurd h (by simp)
    · rw [if_neg hv] at h
      cases hh : (pySplit f.content).head? with
      | none =>
        rw [hh] at h
        exact absurd h (by simp)
      | some tok =>
        rw [hh] at h
        dsimp only at h
        cases hp : parse_timeout_int? tok with
        | none =>
          rw [hp] at h
          exact absurd h (by simp)
        | some t =>
          rw [hp] at h
          dsimp only at h
          have := Except.ok.inj h
          rw [← this]

/-- Witness for C9 (amended) on the counterexample filesystem: the marker
dated 100 seconds in the future yields `seconds_running = 0 - 100`. -/
theorem build_job_seconds_running_unclamped_witness :
    (_build_job_from_fp ⟨true, false, false, [⟨"a.log", "5", 100, false⟩], 0⟩
        "/tmp/idle-tracking/" "a.log" =
      Except.ok ⟨"a", -100, 5, "/tmp/idle-tracking/a.log"⟩) ∧
    (∃ f ∈ (⟨true, false, false, [⟨"a.log", "5", 100, false⟩], 0⟩ : FS).files,
      f.name = "a.log" ∧
      (⟨"a", -100, 5, "/tmp/idle-tracking/a.log"⟩ : Jobs).seconds_running =
        (⟨true, false, false, [⟨"a.log", "5", 100, false⟩], 0⟩ : FS).now - f.mtime) :=
  ⟨rfl,
    build_job_seconds_running_unclamped
      ⟨true, false, false, [⟨"a.log", "5", 100, false⟩], 0⟩
      "/tmp/idle-tracking/" "a.log"
      ⟨"a", -100, 5, "/tmp/idle-tracking/a.log"⟩ rfl⟩

/-- Observable outcome of one `main` run: the idle verdict and whether
`trigger_shutdown()` was invoked. -/
structure MainResult where
  is_idle : Bool
  triggered_shutdown : Bool
deriving Repr, DecidableEq

/-- `main(options)`: builds the job list from the tracking directory, asks
`is_machine_idle`, and only when idle reads the uptime and asks
`shutdown_saves_money`; `trigger_shutdown()` is invoked exactly when the
latter also returns true. The uptime read (`get_uptime_seconds`, from
`/proc/uptime`) is an input; the integer option conversions `int(...)` are
performed by the caller of this model. An exception from the registry
propagates (as in the source, where nothing catches it). (Named `main_run`
because Lean reserves the name `main` for executables.) -/
def main_run (fs : FS) (tracking_dir idle_quiet_minutes : String)
    (paid_on_boot_minutes payment_chunk_minutes shutdown_safety_margin
     uptime_seconds : Int) : Except PyError MainResult :=
  match build_jobs_from_dir fs tracking_dir with
  | Except.error e => Except.error e
  | Except.ok jobs =>
    let r := is_machine_idle jobs idle_quiet_minutes tracking_dir
    if r.idle then
      if shutdown_saves_money uptime_seconds paid_on_boot_minutes
          payment_chunk_minutes shutdown_safety_margin then
        Except.ok ⟨true, true⟩
      else
        Except.ok ⟨true, false⟩
    else
      Except.ok ⟨false, false⟩

/-- C3: in every completed run of `main`, the shutdown trigger fires only
when `is_machine_idle` returned `true` and `shutdown_saves_money` returned
`true` in that same invocation (so it never fires when either returned
`false`). -/
theorem main_trigger_only_when_idle_and_saves
    (fs : FS) (tr q : String) (p c m u : Int) (r : MainResult)
    (h : main_run fs tr q p c m u = Except.ok r)
    (ht : r.triggered_shutdown = true) :
    ∃ jobs, build_jobs_from_dir fs tr = Except.ok jobs ∧
      (is_machine_idle jobs q tr).idle = true ∧
      shutdown_saves_money u p c m = true := by
  unfold main_run at h
  cases hb : build_jobs_from_dir fs tr with
  | error e =>
    rw [hb] at h
    exact absurd h (by simp)
  | ok jobs =>
    rw [hb] at h
    dsimp only at h
    refine ⟨jobs, rfl, ?_⟩
    by_cases hi : (is_machine_idle jobs q tr).idle = true
    · rw [if_pos hi] at h
      by_cases hs : shutdown_saves_money u p c m = true
      · exact ⟨hi, hs⟩
      · rw [if_neg hs] at h
        have hr := Except.ok.inj h
        rw [← hr] at ht
        exact absurd ht (by simp)
    · rw [if_neg hi] at h
      have hr := Except.ok.inj h
      rw [← hr] at ht
      exact absurd ht (by simp)

/-- Witness for C3: a directory holding only an expired quiet-timer marker
(written 200 seconds ago with a 2-minute timeout) and an uptime for which
shutting down saves money; the run triggers the shutdown. -/
theorem main_trigger_only_when_idle_and_saves_witness :
    (main_run ⟨true, false, false, [⟨"_idle_quiet_timer.log", "2", 0, false⟩], 200⟩
        "/tmp/idle-tracking/" "2" 10 1 2 360 =
      Except.ok ⟨true, true⟩) ∧
    ((⟨true, true⟩ : MainResult).triggered_shutdown = true) ∧
    (∃ jobs, build_jobs_from_dir
        ⟨true, false, false, [⟨"_idle_quiet_timer.log", "2", 0, false⟩], 200⟩
        "/tmp/idle-tracking/" = Except.ok jobs ∧
      (is_machine_idle jobs "2" "/tmp/idle-tracking/").idle = true ∧
      shutdown_saves_money 360 10 1 2 = true) :=
  ⟨rfl, rfl,
    main_trigger_only_when_idle_and_saves
      ⟨true, false, false, [⟨"_idle_quiet_timer.log", "2", 0, false⟩], 200⟩
      "/tmp/idle-tracking/" "2" 10 1 2 360 ⟨true, true⟩ rfl rfl⟩
